import Mathlib

/-
Verification development for `element_interface/prairieviewreader.py`.

The single source function `get_pv_metadata` locates a PrairieView metadata
XML file in the directory of a given .ome.tif image, extracts scalar
acquisition metadata, resolves the Z-depth configuration (single-plane /
single-controller / multi-controller), and assembles a flat record.

We embed the XML document as a tree of elements and translate each
ElementTree query used by the source into an explicit Lean function with
ElementTree semantics (descendant search in document order, child steps,
attribute-predicate filters).  Python runtime failures (IndexError on
`[0]`/`[-1]`, AttributeError on `None.attrib`, TypeError on `float(None)`,
ValueError on unparsable numerals, ZeroDivisionError, AssertionError) are
modelled as an explicit error type in the `Except` monad.  Floats are
modelled as rationals.
-/

/-- An XML element: tag name, attribute list, child elements (in document
order).  Mirrors `xml.etree.ElementTree.Element`. -/
inductive Elem where
  | mk (tag : String) (attrs : List (String × String)) (children : List Elem)

def Elem.tag : Elem → String
  | .mk t _ _ => t

def Elem.attrs : Elem → List (String × String)
  | .mk _ a _ => a

def Elem.children : Elem → List Elem
  | .mk _ _ c => c

/-- Python `e.attrib.get(k)`: first binding of attribute `k`, if any. -/
def Elem.attr (e : Elem) (k : String) : Option String :=
  (e.attrs.find? (fun p => p.1 == k)).map Prod.snd

mutual

/-- All proper descendants of an element, in document (pre-)order.  This is
the node set traversed by an ElementTree `.//` step. -/
def Elem.descendants : Elem → List Elem
  | .mk _ _ cs => descList cs

/-- Descendant-or-self traversal of a forest, in document order. -/
def descList : List Elem → List Elem
  | [] => []
  | c :: cs => c :: (Elem.descendants c ++ descList cs)

end

/-- XPath child step `/tag`: the `tag`-children of each node, concatenated. -/
def step (t : String) (es : List Elem) : List Elem :=
  es.flatMap (fun e => e.children.filter (fun c => c.tag == t))

/-- XPath predicate `[@k='v']`. -/
def withAttr (k v : String) (es : List Elem) : List Elem :=
  es.filter (fun e => e.attr k == some v)

/-- XPath predicate `[@k]` (attribute present). -/
def hasAttr (k : String) (es : List Elem) : List Elem :=
  es.filter (fun e => (e.attr k).isSome)

/-- Query `.//Sequence`: all descendant `Sequence` elements, document order. -/
def allSequences (root : Elem) : List Elem :=
  root.descendants.filter (fun e => e.tag == "Sequence")

/-- Query `.//Sequence/[@cycle='1']`. -/
def cycle1Sequences (root : Elem) : List Elem :=
  withAttr "cycle" "1" (allSequences root)

/-- Query `.//Sequence/Frame`. -/
def allSeqFrames (root : Elem) : List Elem :=
  step "Frame" (allSequences root)

/-- Query `.//Sequence/[@cycle='1']/Frame`. -/
def cycle1Frames (root : Elem) : List Elem :=
  step "Frame" (cycle1Sequences root)

/-- Query `.//Sequence/Frame/File/[@channel]`. -/
def frameFiles (root : Elem) : List Elem :=
  hasAttr "channel" (step "File" (allSeqFrames root))

/-- Query `.//PVStateValue/[@key='<key>']`. -/
def pvStateValues (root : Elem) (key : String) : List Elem :=
  withAttr "key" key (root.descendants.filter (fun e => e.tag == "PVStateValue"))

/-- Query `.//PVStateValue/[@key='<key>']/IndexedValue/[@index='<axis>']`. -/
def indexedValueAxis (root : Elem) (key axis : String) : List Elem :=
  withAttr "index" axis (step "IndexedValue" (pvStateValues root key))

/-- Path continuation `<frames>/PVStateShard/PVStateValue/[@key='positionCurrent']/SubindexedValues/[@index='ZAxis']`. -/
def frameZAxisNodesOf (frames : List Elem) : List Elem :=
  withAttr "index" "ZAxis"
    (step "SubindexedValues"
      (withAttr "key" "positionCurrent"
        (step "PVStateValue" (step "PVStateShard" frames))))

/-- Query `.//Sequence/[@cycle='1']/Frame/PVStateShard/PVStateValue/[@key='positionCurrent']/SubindexedValues/[@index='ZAxis']`
(the multi-plane branch condition node set). -/
def perFrameZAxis (root : Elem) : List Elem :=
  frameZAxisNodesOf (cycle1Frames root)

/-- Query `.//Sequence/[@cycle='1']/Frame/[@index='1']`. -/
def cycle1IndexOneFrames (root : Elem) : List Elem :=
  withAttr "index" "1" (cycle1Frames root)

/-- Query `.//Sequence/[@cycle='1']/Frame/[@index='1']/.../SubindexedValues/[@index='ZAxis']/SubindexedValue`
(`z_controllers` in the source). -/
def zControllers (root : Elem) : List Elem :=
  step "SubindexedValue" (frameZAxisNodesOf (cycle1IndexOneFrames root))

/-- The same path with a trailing slash: ElementTree appends an implicit `*`,
so this selects ALL children of the ZAxis `SubindexedValues` nodes at frame
index 1 of cycle 1 (the controllers iterated in the multi-controller loop). -/
def zControllerChildren (root : Elem) : List Elem :=
  (frameZAxisNodesOf (cycle1IndexOneFrames root)).flatMap Elem.children

/-- Query `.//Sequence/[@cycle='1']/Frame/.../SubindexedValues/[@index='ZAxis']/SubindexedValue`
across all cycle-1 frames. -/
def cycle1ZSubValues (root : Elem) : List Elem :=
  step "SubindexedValue" (frameZAxisNodesOf (cycle1Frames root))

/-- The previous set filtered by `[@subindex='<sub>']`. -/
def subindexValuesFor (root : Elem) (sub : String) : List Elem :=
  withAttr "subindex" sub (cycle1ZSubValues root)

/-- Raw `value` attributes at subindex `'0'` across cycle-1 frames, in frame
order (`z_fields` of the single-controller branch; note: raw attribute
strings, and a missing attribute yields Python `None`). -/
def singleControllerValues (root : Elem) : List (Option String) :=
  (subindexValuesFor root "0").map (fun z => z.attr "value")

/-- Query `.//PVStateValue/[@key='positionCurrent']/SubindexedValues/[@index='ZAxis']/SubindexedValue`
(the lookup of the single-plane branch; note the unrestricted `.//` start:
it sees per-frame `PVStateValue` nodes of any cycle as well). -/
def anyZSubValue (root : Elem) : List Elem :=
  step "SubindexedValue"
    (withAttr "index" "ZAxis"
      (step "SubindexedValues" (pvStateValues root "positionCurrent")))

/- ----------------------- Rational arithmetic ----------------------- -/

/-
Python float arithmetic is modelled exactly on ℚ.  The field operations of ℚ
are not kernel-reducible in this toolchain, so the embedding computes with
the following `Rat.divInt`-based operations; each is proved equal to the
corresponding field operation, and all theorem statements use the field
operations.
-/

/-- Negation on ℚ, computably. -/
def ratNeg (a : ℚ) : ℚ := Rat.divInt (-a.num) a.den

/-- Addition on ℚ, computably. -/
def ratAdd (a b : ℚ) : ℚ :=
  Rat.divInt (a.num * b.den + b.num * a.den) (a.den * b.den)

/-- Multiplication on ℚ, computably. -/
def ratMul (a b : ℚ) : ℚ := Rat.divInt (a.num * b.num) (a.den * b.den)

/-- Inverse on ℚ, computably. -/
def ratInv (a : ℚ) : ℚ := Rat.divInt a.den a.num

/-- Division on ℚ, computably. -/
def ratDiv (a b : ℚ) : ℚ := ratMul a (ratInv b)

def digitVal (c : Char) : Option ℕ :=
  if c.isDigit then some (c.toNat - 48) else none

/-- Value of a digit string; `some 0` on the empty list (used for the parts
around a decimal point, either of which may be empty). -/
def digitsVal (cs : List Char) : Option ℕ :=
  cs.foldlM (fun acc c => (digitVal c).map (fun d => 10 * acc + d)) 0

/-- Unsigned decimal numeral, as accepted by Python `float` on the documents
at hand: digits, optionally with one decimal point; at least one digit.
The value `i.f` is the rational `(i * 10^|f| + f) / 10^|f|`.
(Exponent forms, inf/nan and surrounding whitespace are not needed for
PrairieView attribute values and are not modelled.) -/
def pyFloatCore (cs : List Char) : Option ℚ :=
  let intPart := cs.takeWhile (fun c => c ≠ '.')
  match cs.dropWhile (fun c => c ≠ '.') with
  | [] =>
      if intPart.isEmpty then none
      else (digitsVal intPart).map (fun n => Rat.divInt n 1)
  | _ :: frac =>
      if (intPart.isEmpty && frac.isEmpty) || frac.contains '.' then none
      else do
        let i ← digitsVal intPart
        let f ← digitsVal frac
        pure (Rat.divInt ((i : ℤ) * 10 ^ frac.length + (f : ℤ))
          ((10 : ℤ) ^ frac.length))

/-- Python `float(s)` (decimal forms). -/
def pyFloat (s : String) : Option ℚ :=
  match s.toList with
  | '-' :: rest => (pyFloatCore rest).map ratNeg
  | '+' :: rest => pyFloatCore rest
  | cs => pyFloatCore cs

/-- Python `int(s)`: optional sign, nonempty digits. -/
def pyInt (s : String) : Option ℤ :=
  match s.toList with
  | '-' :: rest =>
      if rest.isEmpty then none else (digitsVal rest).map (fun n => -(n : ℤ))
  | '+' :: rest =>
      if rest.isEmpty then none else (digitsVal rest).map (fun n => (n : ℤ))
  | cs =>
      if cs.isEmpty then none else (digitsVal cs).map (fun n => (n : ℤ))

/- ----------------------- Error model ----------------------- -/

/-- The Python exceptions `get_pv_metadata` can raise. -/
inductive PVError where
  | fileNotFound (dir : String)
  | indexError
  | attributeError
  | typeError
  | valueError
  | zeroDivisionError
  | assertionError (msg : String)
deriving DecidableEq

/-- Python `list[0]` (IndexError on empty). -/
def listGet0 {α : Type} (l : List α) : Except PVError α :=
  match l with
  | [] => .error .indexError
  | a :: _ => .ok a

/-- Python `list[-1]` (IndexError on empty). -/
def listGetLast {α : Type} (l : List α) : Except PVError α :=
  match l.getLast? with
  | none => .error .indexError
  | some a => .ok a

/-- Python `root.find(path).attrib...`: AttributeError when `find` returns `None`,
i.e. the match list is empty; otherwise the first match. -/
def findAttrib (es : List Elem) : Except PVError Elem :=
  match es with
  | [] => .error .attributeError
  | e :: _ => .ok e

/-- Python `float(e.attrib.get(k))`: TypeError on a missing attribute
(`float(None)`), ValueError on an unparsable string. -/
def pyFloatAttr (e : Elem) (k : String) : Except PVError ℚ :=
  match e.attr k with
  | none => .error .typeError
  | some s =>
      match pyFloat s with
      | none => .error .valueError
      | some q => .ok q

/-- Python `int(e.attrib.get(k))`. -/
def pyIntAttr (e : Elem) (k : String) : Except PVError ℤ :=
  match e.attr k with
  | none => .error .typeError
  | some s =>
      match pyInt s with
      | none => .error .valueError
      | some n => .ok n

/-- Python `assert cond, msg`. -/
def pyAssert (b : Bool) (msg : String) : Except PVError Unit :=
  if b then .ok () else .error (.assertionError msg)

/-- Python `1 / x` on floats: `ZeroDivisionError` when `x == 0`. -/
def pyDivOne (x : ℚ) : Except PVError ℚ :=
  if x = 0 then .error .zeroDivisionError else .ok (ratDiv 1 x)

/-- Python `e.attrib.get(k)` fed to a conversion that raises `TypeError` on `None`
(`datetime.strptime(None, ...)`). -/
def attrOrTypeError (e : Elem) (k : String) : Except PVError String :=
  match e.attr k with
  | none => .error .typeError
  | some s => .ok s

/-- A Python list comprehension whose body may raise: first raise wins,
evaluated left to right. -/
def mapExcept {α β : Type} (f : α → Except PVError β) :
    List α → Except PVError (List β)
  | [] => .ok []
  | a :: as =>
      match f a, mapExcept f as with
      | .error e, _ => .error e
      | .ok _, .error e => .error e
      | .ok b, .ok bs => .ok (b :: bs)

/- ----------------------- The four pipeline stages ----------------------- -/

/-- Python truthiness of an ElementTree `Element`: an element tests true
exactly when it has at least one child (`len(self._children) != 0`). -/
def elemTruthy (e : Elem) : Bool := !e.children.isEmpty

/-- Condition `if root.find(".//Sequence"):` — the root qualifies when the FIRST
descendant `Sequence` element exists and is truthy (has children). -/
def qualifies (root : Elem) : Bool :=
  match (allSequences root).head? with
  | none => false
  | some s => elemTruthy s

/-- Lines 32-42: iterate the directory's XML documents in glob order, stop at
the first that qualifies; raise `FileNotFoundError` naming the directory if
none does. -/
def locateMetadataRoot (dirName : String) : List Elem → Except PVError Elem
  | [] => .error (.fileNotFound dirName)
  | r :: rs => if qualifies r then .ok r else locateMetadataRoot dirName rs

/-- The scalar fields extracted in lines 44-99, before the depth branch. -/
structure Scalars where
  record_start_time : Option String
  n_channels : ℕ
  n_frames : ℕ
  framerate : ℚ
  usec_per_line : ℚ
  scan_date : String
  total_duration : ℚ
  px_height : ℤ
  um_per_pixel : ℚ
  x_field : ℚ
  y_field : ℚ
deriving DecidableEq

/-- Lines 44-99 of the source: the scalar metadata extractor.
`strptime` format validation of the `date` attribute is not modelled (no
claim concerns the timestamp value); its `TypeError` on a missing attribute
is. -/
def scalarExtract (root : Elem) : Except PVError Scalars := do
  let seq1 ← findAttrib (cycle1Sequences root)
  let channel_list ← mapExcept (fun ch => pyIntAttr ch "channel") (frameFiles root)
  let fpNode ← listGet0 (pvStateValues root "framePeriod")
  let fp ← pyFloatAttr fpNode "value"
  let framerate ← pyDivOne fp
  let slNode ← listGet0 (pvStateValues root "scanLinePeriod")
  let sl ← pyFloatAttr slNode "value"
  let scan_date ← attrOrTypeError root "date"
  let lastFrame ← listGetLast (allSeqFrames root)
  let total_duration ← pyFloatAttr lastFrame "relativeTime"
  let pxNode ← listGet0 (pvStateValues root "pixelsPerLine")
  let px_height ← pyIntAttr pxNode "value"
  let umNode ← findAttrib (indexedValueAxis root "micronsPerPixel" "XAxis")
  let um_per_pixel ← pyFloatAttr umNode "value"
  let xNode ← findAttrib (indexedValueAxis root "currentScanCenter" "XAxis")
  let x_field ← pyFloatAttr xNode "value"
  let yNode ← findAttrib (indexedValueAxis root "currentScanCenter" "YAxis")
  let y_field ← pyFloatAttr yNode "value"
  pure {
    record_start_time := seq1.attr "time"
    n_channels := channel_list.dedup.length
    n_frames := (allSeqFrames root).length
    framerate := framerate
    usec_per_line := ratMul sl 1000000
    scan_date := scan_date
    total_duration := total_duration
    px_height := px_height
    um_per_pixel := um_per_pixel
    x_field := x_field
    y_field := y_field }

/-- The `z_fields` value of the record: a numpy scalar in the single-plane
branch, a list of raw attribute strings (Python `Optional[str]`) in the
single-controller branch, a list of floats in the multi-controller branch. -/
inductive ZFields where
  | scalar (v : ℚ)
  | strs (vs : List (Option String))
  | floats (vs : List ℚ)
deriving DecidableEq

/-- numpy `.size` of the single-plane scalar is 1; `len` of the lists. -/
def ZFields.size : ZFields → ℕ
  | .scalar _ => 1
  | .strs vs => vs.length
  | .floats vs => vs.length

/-- Expression `all(z == z_controller[0] for z in z_controller)` negated: on an empty
list the generator is empty, so `all` is vacuously `True` (the `[0]` index is
never evaluated) and the controller does not vary. -/
def variesCheck (zc : List ℚ) : Bool :=
  !(zc.all (fun z => decide (z = zc.headI)))

/-- Lines 132-144: for each child of the ZAxis `SubindexedValues` node(s) at
frame index 1 of cycle 1, collect `float(value)` of the per-frame
`SubindexedValue` entries carrying its subindex across all cycle-1 frames.
A missing `subindex` attribute is formatted by Python as the string
`"None"`. -/
def collectRepeats (root : Elem) : Except PVError (List (List ℚ)) :=
  mapExcept
    (fun controller =>
      mapExcept (fun z => pyFloatAttr z "value")
        (subindexValuesFor root ((controller.attr "subindex").getD "None")))
    (zControllerChildren root)

/-- message of the disambiguation assert (line 149). -/
def mcMsg : String := "Multiple controllers changing z depth is not supported"

/-- message of the length assert (lines 161-163). -/
def depthMsg : String := "Number of z fields does not match number of depths."

/-- Lines 100-163 of the source: the depth resolver.  Returns
`(n_depths, z_fields, bidirection_z)`. -/
def depthResolve (root : Elem) : Except PVError (ℕ × ZFields × Bool) := do
  if (perFrameZAxis root).isEmpty then
    let zNode ← findAttrib (anyZSubValue root)
    let z ← pyFloatAttr zNode "value"
    let _ ← pyAssert ((ZFields.scalar z).size == 1) "z size"
    pure (1, ZFields.scalar z, false)
  else
    let firstSeq ← findAttrib (allSequences root)
    let bidirection_z := (firstSeq.attr "bidirectionalZ") == some "True"
    let planes ← mapExcept (fun p => pyIntAttr p "index") (cycle1Frames root)
    let n_depths := planes.dedup.length
    if 1 < (zControllers root).length then
      let z_repeats ← collectRepeats root
      let controller_assert := z_repeats.map variesCheck
      let _ ← pyAssert (controller_assert.countP (fun b => b) == 1) mcMsg
      let z_fields := z_repeats.getD (controller_assert.indexOf true) []
      let _ ← pyAssert (z_fields.length == n_depths) depthMsg
      pure (n_depths, ZFields.floats z_fields, bidirection_z)
    else
      let z_fields := singleControllerValues root
      let _ ← pyAssert (z_fields.length == n_depths) depthMsg
      pure (n_depths, ZFields.strs z_fields, bidirection_z)

/-- The returned dict (lines 165-188).  The constant-`None` entries
`x_pos`, `y_pos`, `z_pos` are omitted; `scan_datetime` carries the raw
`date` string. -/
structure MetaInfo where
  num_fields : ℕ
  num_channels : ℕ
  num_planes : ℕ
  num_frames : ℕ
  num_rois : ℕ
  frame_rate : ℚ
  bidirectional : Bool
  bidirectional_z : Bool
  scan_datetime : String
  usecs_per_line : ℚ
  scan_duration : ℚ
  height_in_pixels : ℤ
  width_in_pixels : ℤ
  height_in_um : ℚ
  width_in_um : ℚ
  fieldX : ℚ
  fieldY : ℚ
  fieldZ : ZFields
  recording_time : Option String
deriving DecidableEq

/-- Assembling the record from the extractor and resolver outputs. -/
def assemble (s : Scalars) (d : ℕ × ZFields × Bool) : MetaInfo where
  num_fields := 1
  num_channels := s.n_channels
  num_planes := d.1
  num_frames := s.n_frames
  num_rois := 0
  frame_rate := s.framerate
  bidirectional := false
  bidirectional_z := d.2.2
  scan_datetime := s.scan_date
  usecs_per_line := s.usec_per_line
  scan_duration := s.total_duration
  height_in_pixels := s.px_height
  width_in_pixels := s.px_height
  height_in_um := ratMul (s.px_height : ℚ) s.um_per_pixel
  width_in_um := ratMul (s.px_height : ℚ) s.um_per_pixel
  fieldX := s.x_field
  fieldY := s.y_field
  fieldZ := d.2.1
  recording_time := s.record_start_time

/-- Function `get_pv_metadata`: the whole pipeline for one directory, whose XML
documents are given parsed, in glob order. -/
def get_pv_metadata (dirName : String) (xmlRoots : List Elem) :
    Except PVError MetaInfo := do
  let root ← locateMetadataRoot dirName xmlRoots
  let s ← scalarExtract root
  let d ← depthResolve root
  pure (assemble s d)

/-- The error of a failed run (used where the success type lacks decidable
equality). -/
def errOf {α : Type} : Except PVError α → Option PVError
  | .ok _ => none
  | .error e => some e

deriving instance DecidableEq for Except

/- ----------------------- Concrete test documents ----------------------- -/

/-- A `PVStateValue` leaf with a `key` and a `value`. -/
def shardPV (key v : String) : Elem :=
  .mk "PVStateValue" [("key", key), ("value", v)] []

/-- A `PVStateValue` with `IndexedValue` children. -/
def pvIndexed (key : String) (items : List (String × String)) : Elem :=
  .mk "PVStateValue" [("key", key)]
    (items.map (fun p => .mk "IndexedValue" [("index", p.1), ("value", p.2)] []))

/-- The top-level `PVStateShard` holding all scalar configuration nodes. -/
def topLevelShard : Elem :=
  .mk "PVStateShard" []
    [shardPV "framePeriod" "0.02",
     shardPV "scanLinePeriod" "0.0001",
     shardPV "pixelsPerLine" "512",
     pvIndexed "micronsPerPixel" [("XAxis", "1.2")],
     pvIndexed "currentScanCenter" [("XAxis", "3.5"), ("YAxis", "4.5")]]

/-- The sequence-level `positionCurrent` Z entry (single-plane documents). -/
def topZEntry (v : String) : Elem :=
  .mk "PVStateValue" [("key", "positionCurrent")]
    [.mk "SubindexedValues" [("index", "ZAxis")]
      [.mk "SubindexedValue" [("value", v)] []]]

/-- A `SubindexedValue` leaf. -/
def subVal (attrs : List (String × String)) : Elem :=
  .mk "SubindexedValue" attrs []

/-- A per-frame `PVStateShard` holding the Z-axis `SubindexedValues` node. -/
def frameZShard (subvals : List Elem) : Elem :=
  .mk "PVStateShard" []
    [.mk "PVStateValue" [("key", "positionCurrent")]
      [.mk "SubindexedValues" [("index", "ZAxis")] subvals]]

/-- A `Frame` with an index, a relative time, one `File` and extra shards. -/
def mkFrame (idx rel chan : String) (shards : List Elem) : Elem :=
  .mk "Frame" [("index", idx), ("relativeTime", rel)]
    (.mk "File" [("channel", chan)] [] :: shards)

/-- Multi-plane document, one Z controller, 3 depths. -/
def fixMulti1 : Elem :=
  .mk "PVScan" [("date", "07/06/2022 10:00:00 AM")]
    [topLevelShard,
     .mk "Sequence" [("cycle", "1"), ("time", "10:00:01"), ("bidirectionalZ", "True")]
       [mkFrame "1" "0.0" "1" [frameZShard [subVal [("subindex", "0"), ("value", "1.0")]]],
        mkFrame "2" "1.0" "1" [frameZShard [subVal [("subindex", "0"), ("value", "2.0")]]],
        mkFrame "3" "2.0" "1" [frameZShard [subVal [("subindex", "0"), ("value", "3.0")]]]]]

/-- Single-plane document: no per-frame Z data in cycle 1; six frames with
alternating channels 1 and 2; sequence-level Z entry `5.0`. -/
def fixSingle : Elem :=
  .mk "PVScan" [("date", "06/01/2023 08:30:00 AM")]
    [.mk "PVStateShard" [] [topZEntry "5.0"],
     topLevelShard,
     .mk "Sequence" [("cycle", "1"), ("time", "08:30:01")]
       [mkFrame "1" "0.0" "1" [], mkFrame "2" "0.5" "2" [],
        mkFrame "3" "1.0" "1" [], mkFrame "4" "1.5" "2" [],
        mkFrame "5" "2.0" "1" [], mkFrame "6" "2.5" "2" []]]

/-- Multi-plane document with two Z controllers at frame index 1: subindex 0
varies (10, 20, 30), subindex 1 is constant (5, 5, 5). -/
def fixMulti2 : Elem :=
  .mk "PVScan" [("date", "07/06/2022 10:00:00 AM")]
    [topLevelShard,
     .mk "Sequence" [("cycle", "1"), ("time", "10:00:01"), ("bidirectionalZ", "False")]
       [mkFrame "1" "0.0" "1"
          [frameZShard [subVal [("subindex", "0"), ("value", "10.0")],
                        subVal [("subindex", "1"), ("value", "5.0")]]],
        mkFrame "2" "1.0" "1"
          [frameZShard [subVal [("subindex", "0"), ("value", "20.0")],
                        subVal [("subindex", "1"), ("value", "5.0")]]],
        mkFrame "3" "2.0" "1"
          [frameZShard [subVal [("subindex", "0"), ("value", "30.0")],
                        subVal [("subindex", "1"), ("value", "5.0")]]]]]

/-- Multi-plane document with two Z controller children at frame index 1, the
second of which has NO `subindex` attribute, so its per-frame value
collection is empty. -/
def fixC10 : Elem :=
  .mk "PVScan" [("date", "07/06/2022 10:00:00 AM")]
    [topLevelShard,
     .mk "Sequence" [("cycle", "1"), ("time", "10:00:01")]
       [mkFrame "1" "0.0" "1"
          [frameZShard [subVal [("subindex", "0"), ("value", "10.0")],
                        subVal [("value", "9.9")]]],
        mkFrame "2" "1.0" "1"
          [frameZShard [subVal [("subindex", "0"), ("value", "20.0")]]],
        mkFrame "3" "2.0" "1"
          [frameZShard [subVal [("subindex", "0"), ("value", "30.0")]]]]]

/-- Document whose cycle-1 frames carry no Z data (single-plane branch) but
whose cycle-2 frame carries a per-frame Z entry (`7.0`) that precedes the
sequence-level entry (`5.0`) in document order. -/
def fixC3 : Elem :=
  .mk "PVScan" [("date", "07/06/2022 10:00:00 AM")]
    [.mk "Sequence" [("cycle", "1"), ("time", "10:00:01")]
       [mkFrame "1" "0.0" "1" [], mkFrame "2" "1.0" "1" []],
     .mk "Sequence" [("cycle", "2")]
       [mkFrame "1" "3.0" "1" [frameZShard [subVal [("value", "7.0")]]]],
     topLevelShard,
     .mk "PVStateShard" [] [topZEntry "5.0"]]

/-- Single-plane document with TWO `framePeriod` nodes (`0.02` then `0.04`). -/
def fixC4 : Elem :=
  .mk "PVScan" [("date", "07/06/2022 10:00:00 AM")]
    [.mk "PVStateShard" []
       [shardPV "framePeriod" "0.02", shardPV "framePeriod" "0.04",
        shardPV "scanLinePeriod" "0.0001", shardPV "pixelsPerLine" "512",
        pvIndexed "micronsPerPixel" [("XAxis", "1.2")],
        pvIndexed "currentScanCenter" [("XAxis", "3.5"), ("YAxis", "4.5")],
        topZEntry "5.0"],
     .mk "Sequence" [("cycle", "1"), ("time", "10:00:01")]
       [mkFrame "1" "0.0" "1" [], mkFrame "2" "1.0" "1" []]]

/-- Document whose root contains a `Sequence` element that has no children
(falsy under Python element truthiness). -/
def fixC5 : Elem :=
  .mk "PVScan" [] [.mk "Sequence" [("cycle", "1")] []]

/- ----------------------- Result extractors ----------------------- -/

/-- Whether a run returned a record. -/
def isOkE {α : Type} : Except PVError α → Bool
  | .ok _ => true
  | .error _ => false

/-- The `fieldZ` entry of a successful run. -/
def fieldZOf (r : Except PVError MetaInfo) : Option ZFields :=
  match r with
  | .ok m => some m.fieldZ
  | .error _ => none

/-- The `frame_rate` entry of a successful run. -/
def frameRateOf (r : Except PVError MetaInfo) : Option ℚ :=
  match r with
  | .ok m => some m.frame_rate
  | .error _ => none

mutual

/-- Descendants that do not lie inside any `Frame` element. -/
def Elem.nonFrameDesc : Elem → List Elem
  | .mk _ _ cs => nonFrameDescList cs

/-- Descendant-or-self traversal of a forest, pruned at `Frame` elements. -/
def nonFrameDescList : List Elem → List Elem
  | [] => []
  | c :: cs =>
      (if c.tag == "Frame" then [] else c :: c.nonFrameDesc)
        ++ nonFrameDescList cs

end

/-- Modelled from the spec's words, for comparison in C3: the
"sequence-level (not per-frame) Z-position entry" — `positionCurrent`/ZAxis
`SubindexedValue` nodes that do NOT lie inside any `Frame` element. -/
def specSequenceLevelZValues (root : Elem) : List Elem :=
  step "SubindexedValue"
    (withAttr "index" "ZAxis"
      (step "SubindexedValues"
        (withAttr "key" "positionCurrent"
          (root.nonFrameDesc.filter (fun e => e.tag == "PVStateValue")))))

/- ----------------------- Theorems ----------------------- -/

theorem ratNeg_eq (a : ℚ) : ratNeg a = -a := by
  rw [ratNeg, Rat.divInt_eq_div]
  push_cast
  rw [neg_div, Rat.num_div_den]

theorem ratAdd_eq (a b : ℚ) : ratAdd a b = a + b := by
  have ha : (a.den : ℚ) ≠ 0 := Nat.cast_ne_zero.mpr a.den_nz
  have hb : (b.den : ℚ) ≠ 0 := Nat.cast_ne_zero.mpr b.den_nz
  rw [ratAdd, Rat.divInt_eq_div]
  push_cast
  conv_rhs => rw [← Rat.num_div_den a, ← Rat.num_div_den b]
  rw [div_add_div _ _ ha hb]
  ring_nf

theorem ratMul_eq (a b : ℚ) : ratMul a b = a * b := by
  rw [ratMul, Rat.divInt_eq_div]
  push_cast
  conv_rhs => rw [← Rat.num_div_den a, ← Rat.num_div_den b]
  rw [div_mul_div_comm]

theorem ratInv_eq (a : ℚ) : ratInv a = a⁻¹ := by
  rw [ratInv, Rat.divInt_eq_div]
  conv_rhs => rw [← Rat.num_div_den a]
  rw [inv_div]
  norm_cast

theorem ratDiv_eq (a b : ℚ) : ratDiv a b = a / b := by
  rw [ratDiv, ratMul_eq, ratInv_eq, div_eq_mul_inv]

/- ----------------------- Python numeral parsing ----------------------- -/

/- ----------------------- Inversion toolkit ----------------------- -/

theorem ok_bind {α β : Type} (a : α) (f : α → Except PVError β) :
    (Except.ok a >>= f) = f a := rfl

theorem err_bind {α β : Type} (e : PVError) (f : α → Except PVError β) :
    ((Except.error e : Except PVError α) >>= f) = Except.error e := rfl

theorem pure_def {α : Type} (a : α) :
    (pure a : Except PVError α) = Except.ok a := rfl

theorem bind_ok_iff {α β : Type} (x : Except PVError α)
    (f : α → Except PVError β) (b : β) :
    (x >>= f) = Except.ok b ↔ ∃ a, x = Except.ok a ∧ f a = Except.ok b := by
  cases x with
  | error e =>
      rw [err_bind]
      simp
  | ok a =>
      rw [ok_bind]
      simp

theorem findAttrib_ok_iff {l : List Elem} {x : Elem} :
    findAttrib l = Except.ok x ↔ l.head? = some x := by
  cases l <;> simp [findAttrib]

theorem listGet0_ok_iff {α : Type} {l : List α} {x : α} :
    listGet0 l = Except.ok x ↔ l.head? = some x := by
  cases l <;> simp [listGet0]

theorem listGetLast_ok_iff {α : Type} {l : List α} {x : α} :
    listGetLast l = Except.ok x ↔ l.getLast? = some x := by
  unfold listGetLast
  cases h : l.getLast? <;> simp

theorem attrOrTypeError_ok_iff {e : Elem} {k : String} {d : String} :
    attrOrTypeError e k = Except.ok d ↔ e.attr k = some d := by
  unfold attrOrTypeError
  cases h : e.attr k <;> simp

theorem pyAssert_ok_iff {b : Bool} {msg : String} {u : Unit} :
    pyAssert b msg = Except.ok u ↔ b = true := by
  unfold pyAssert
  cases b <;> simp

theorem pyAssert_false {b : Bool} (msg : String) (h : b = false) :
    pyAssert b msg = Except.error (PVError.assertionError msg) := by
  unfold pyAssert
  rw [h]
  rfl

theorem pyDivOne_ok_iff {fp a : ℚ} :
    pyDivOne fp = Except.ok a ↔ ¬ fp = 0 ∧ ratDiv 1 fp = a := by
  unfold pyDivOne
  split <;> simp_all

/-- Inversion of a successful scalar extraction: every lookup found its node,
every conversion succeeded, and the record fields are as computed. -/
theorem scalarExtract_ok_inv (root : Elem) (s : Scalars)
    (h : scalarExtract root = Except.ok s) :
    ∃ seq1 cs fpNode fp slNode sl d lastF td pxNode px umNode upp xNode xv
      yNode yv,
      (cycle1Sequences root).head? = some seq1 ∧
      mapExcept (fun ch => pyIntAttr ch "channel") (frameFiles root)
        = Except.ok cs ∧
      (pvStateValues root "framePeriod").head? = some fpNode ∧
      pyFloatAttr fpNode "value" = Except.ok fp ∧ ¬ fp = 0 ∧
      (pvStateValues root "scanLinePeriod").head? = some slNode ∧
      pyFloatAttr slNode "value" = Except.ok sl ∧
      root.attr "date" = some d ∧
      (allSeqFrames root).getLast? = some lastF ∧
      pyFloatAttr lastF "relativeTime" = Except.ok td ∧
      (pvStateValues root "pixelsPerLine").head? = some pxNode ∧
      pyIntAttr pxNode "value" = Except.ok px ∧
      (indexedValueAxis root "micronsPerPixel" "XAxis").head? = some umNode ∧
      pyFloatAttr umNode "value" = Except.ok upp ∧
      (indexedValueAxis root "currentScanCenter" "XAxis").head? = some xNode ∧
      pyFloatAttr xNode "value" = Except.ok xv ∧
      (indexedValueAxis root "currentScanCenter" "YAxis").head? = some yNode ∧
      pyFloatAttr yNode "value" = Except.ok yv ∧
      s = { record_start_time := seq1.attr "time",
            n_channels := cs.dedup.length,
            n_frames := (allSeqFrames root).length,
            framerate := ratDiv 1 fp,
            usec_per_line := ratMul sl 1000000,
            scan_date := d,
            total_duration := td,
            px_height := px,
            um_per_pixel := upp,
            x_field := xv,
            y_field := yv } := by
  unfold scalarExtract at h
  simp only [bind_ok_iff, findAttrib_ok_iff, listGet0_ok_iff, listGetLast_ok_iff,
    attrOrTypeError_ok_iff, pyDivOne_ok_iff, pure_def, Except.ok.injEq] at h
  obtain ⟨seq1, hseq, cs, hcs, fpNode, hfp, fp, hfpv, fr, ⟨hfp0, hfr⟩, slNode,
    hsl, sl, hslv, d, hd, lastF, hlast, td, htd, pxNode, hpx, px, hpxv, umNode,
    hum, upp, huppv, xNode, hx, xv, hxv, yNode, hy, yv, hyv, hs⟩ := h
  subst hfr
  exact ⟨seq1, cs, fpNode, fp, slNode, sl, d, lastF, td, pxNode, px, umNode,
    upp, xNode, xv, yNode, yv, hseq, hcs, hfp, hfpv, hfp0, hsl, hslv, hd,
    hlast, htd, hpx, hpxv, hum, huppv, hx, hxv, hy, hyv, hs.symm⟩

theorem gpm_ok_inv (dir : String) (roots : List Elem) (root : Elem)
    (m : MetaInfo) (hloc : locateMetadataRoot dir roots = Except.ok root)
    (h : get_pv_metadata dir roots = Except.ok m) :
    ∃ s d, scalarExtract root = Except.ok s ∧ depthResolve root = Except.ok d ∧
      m = assemble s d := by
  unfold get_pv_metadata at h
  rw [hloc, ok_bind] at h
  simp only [bind_ok_iff, pure_def, Except.ok.injEq] at h
  obtain ⟨s, hs, d, hd, hm⟩ := h
  exact ⟨s, d, hs, hd, hm.symm⟩

theorem gpm_err_scalar (dir : String) (roots : List Elem) (root : Elem)
    (e : PVError) (hloc : locateMetadataRoot dir roots = Except.ok root)
    (hsc : scalarExtract root = Except.error e) :
    get_pv_metadata dir roots = Except.error e := by
  unfold get_pv_metadata
  rw [hloc, ok_bind, hsc, err_bind]

theorem gpm_err_depth (dir : String) (roots : List Elem) (root : Elem)
    (s : Scalars) (e : PVError)
    (hloc : locateMetadataRoot dir roots = Except.ok root)
    (hsc : scalarExtract root = Except.ok s)
    (hd : depthResolve root = Except.error e) :
    get_pv_metadata dir roots = Except.error e := by
  unfold get_pv_metadata
  rw [hloc, ok_bind, hsc, ok_bind, hd, err_bind]

theorem gpm_run (dir : String) (roots : List Elem) (root : Elem) (s : Scalars)
    (d : ℕ × ZFields × Bool)
    (hloc : locateMetadataRoot dir roots = Except.ok root)
    (hsc : scalarExtract root = Except.ok s)
    (hd : depthResolve root = Except.ok d) :
    get_pv_metadata dir roots = Except.ok (assemble s d) := by
  unfold get_pv_metadata
  rw [hloc, ok_bind, hsc, ok_bind, hd, ok_bind]
  rfl

theorem isEmpty_eq_false {α : Type} {l : List α} (h : l ≠ []) :
    l.isEmpty = false := by
  cases l with
  | nil => exact absurd rfl h
  | cons a l => rfl

theorem ne_nil_len {α : Type} {l : List α} (h : l.length ≠ 0) : l ≠ [] :=
  fun hh => h (by rw [hh]; rfl)

theorem nil_of_len {α : Type} {l : List α} (h : l.length = 0) : l = [] := by
  cases l with
  | nil => rfl
  | cons a l => simp at h

/-- The multi-plane branch condition forces a `Sequence` element to exist. -/
theorem allSequences_ne_of_perFrame {root : Elem}
    (h : perFrameZAxis root ≠ []) : allSequences root ≠ [] := by
  intro hnil
  apply h
  simp [perFrameZAxis, frameZAxisNodesOf, cycle1Frames, cycle1Sequences, step,
    withAttr, hnil]

/-- Execution of the depth resolver in the single-plane branch. -/
theorem depthResolve_single_run (root : Elem)
    (hsp : perFrameZAxis root = []) :
    depthResolve root =
      (findAttrib (anyZSubValue root) >>= fun zNode =>
        pyFloatAttr zNode "value" >>= fun z =>
        pure (1, ZFields.scalar z, false)) := by
  unfold depthResolve
  rw [hsp]
  rw [if_pos (show (([] : List Elem).isEmpty = true) from rfl)]
  cases hz : findAttrib (anyZSubValue root) with
  | error e => rw [err_bind, err_bind]
  | ok zNode =>
      rw [ok_bind, ok_bind]
      cases hv : pyFloatAttr zNode "value" with
      | error e => rw [err_bind, err_bind]
      | ok z =>
          rw [ok_bind, ok_bind]
          rfl

/-- Execution of the depth resolver in the multi-plane multi-controller
branch, once the per-frame index parse and the value collection are known to
succeed. -/
theorem depthResolve_multi_run (root : Elem) (firstSeq : Elem)
    (planes : List ℤ) (z_repeats : List (List ℚ))
    (hmp : perFrameZAxis root ≠ [])
    (hseq : (allSequences root).head? = some firstSeq)
    (hplanes : mapExcept (fun p => pyIntAttr p "index") (cycle1Frames root)
      = Except.ok planes)
    (hmc : 1 < (zControllers root).length)
    (hcol : collectRepeats root = Except.ok z_repeats) :
    depthResolve root =
      (pyAssert ((z_repeats.map variesCheck).countP (fun x => x) == 1) mcMsg
        >>= fun _ =>
       pyAssert
         ((z_repeats.getD ((z_repeats.map variesCheck).indexOf true) []).length
           == planes.dedup.length) depthMsg >>= fun _ =>
       pure (planes.dedup.length,
         ZFields.floats
           (z_repeats.getD ((z_repeats.map variesCheck).indexOf true) []),
         (firstSeq.attr "bidirectionalZ" == some "True"))) := by
  have hfa : findAttrib (allSequences root) = Except.ok firstSeq := by
    rw [findAttrib_ok_iff, hseq]
  unfold depthResolve
  rw [if_neg (by simp [isEmpty_eq_false hmp])]
  rw [hfa, ok_bind, hplanes, ok_bind]
  rw [if_pos hmc]
  rw [hcol, ok_bind]

/-- Execution of the depth resolver in the multi-plane single-controller
branch (at most one controller entry at frame index 1). -/
theorem depthResolve_strs_run (root : Elem) (firstSeq : Elem)
    (planes : List ℤ)
    (hmp : perFrameZAxis root ≠ [])
    (hseq : (allSequences root).head? = some firstSeq)
    (hplanes : mapExcept (fun p => pyIntAttr p "index") (cycle1Frames root)
      = Except.ok planes)
    (hnot : ¬ 1 < (zControllers root).length) :
    depthResolve root =
      (pyAssert ((singleControllerValues root).length == planes.dedup.length)
        depthMsg >>= fun _ =>
       pure (planes.dedup.length, ZFields.strs (singleControllerValues root),
         (firstSeq.attr "bidirectionalZ" == some "True"))) := by
  have hfa : findAttrib (allSequences root) = Except.ok firstSeq := by
    rw [findAttrib_ok_iff, hseq]
  unfold depthResolve
  rw [if_neg (by simp [isEmpty_eq_false hmp])]
  rw [hfa, ok_bind, hplanes, ok_bind]
  rw [if_neg hnot]

theorem exists_head {α : Type} {l : List α} (h : l ≠ []) :
    ∃ a, l.head? = some a := by
  cases l with
  | nil => exact absurd rfl h
  | cons a l => exact ⟨a, rfl⟩

theorem pyAssert_true {b : Bool} (msg : String) (h : b = true) :
    pyAssert b msg = Except.ok () := by
  unfold pyAssert
  rw [h]
  rfl

/- ----------------------- Claim theorems ----------------------- -/

/-- C1: in the multi-controller branch (more than one Z controller entry at
frame index 1 of cycle 1), the resolver collects each controller's reported
value across all cycle-1 depth frames keyed by its subindex
(`collectRepeats`); a controller varies exactly when not all of its collected
values are equal (`variesCheck`); any returned record's `fieldZ` is the
varying controller's per-frame sequence in frame order, and when the number
of varying controllers is not exactly one the run raises the fatal
disambiguation `AssertionError` and returns no record. -/
theorem C1_multi_controller_disambiguation
    (dir : String) (roots : List Elem) (root : Elem) (s : Scalars)
    (planes : List ℤ) (z_repeats : List (List ℚ))
    (hloc : locateMetadataRoot dir roots = Except.ok root)
    (hsc : scalarExtract root = Except.ok s)
    (hmp : perFrameZAxis root ≠ [])
    (hmc : 1 < (zControllers root).length)
    (hplanes : mapExcept (fun p => pyIntAttr p "index") (cycle1Frames root)
      = Except.ok planes)
    (hcol : collectRepeats root = Except.ok z_repeats) :
    (∀ m, get_pv_metadata dir roots = Except.ok m →
        m.fieldZ = ZFields.floats
          (z_repeats.getD ((z_repeats.map variesCheck).indexOf true) []))
    ∧ ((z_repeats.map variesCheck).countP (fun x => x) ≠ 1 →
        get_pv_metadata dir roots
          = Except.error (PVError.assertionError mcMsg)) := by
  obtain ⟨firstSeq, hseqh⟩ := exists_head (allSequences_ne_of_perFrame hmp)
  have hrun := depthResolve_multi_run root firstSeq planes z_repeats hmp hseqh
    hplanes hmc hcol
  constructor
  · intro m hok
    obtain ⟨s2, d, hs2, hd, hm⟩ := gpm_ok_inv dir roots root m hloc hok
    rw [hrun] at hd
    simp only [bind_ok_iff, pyAssert_ok_iff, beq_iff_eq, pure_def,
      Except.ok.injEq] at hd
    obtain ⟨u, hcnt, v, hlen, hdq⟩ := hd
    rw [hm, ← hdq]
    rfl
  · intro hcnt
    have herr : depthResolve root = Except.error (PVError.assertionError mcMsg) := by
      rw [hrun, pyAssert_false mcMsg (beq_eq_false_iff_ne.mpr hcnt), err_bind]
    exact gpm_err_depth dir roots root s _ hloc hsc herr

/-- C1 witness: on a concrete two-controller document where only subindex 0
varies, a record is returned and its `fieldZ` is that controller's sequence
(10, 20, 30) in frame order. -/
theorem C1_multi_controller_disambiguation_witness :
    1 < (zControllers fixMulti2).length ∧
    ∃ m, get_pv_metadata "/acq" [fixMulti2] = Except.ok m ∧
      m.fieldZ = ZFields.floats [10, 20, 30] := by
  obtain ⟨s, hs⟩ : ∃ s, scalarExtract fixMulti2 = Except.ok s := ⟨_, rfl⟩
  have h := C1_multi_controller_disambiguation "/acq" [fixMulti2] fixMulti2 s
    [1, 2, 3] [[10, 20, 30], [5, 5, 5]] rfl hs (ne_nil_len (by decide))
    (by decide) (by decide) (by decide)
  obtain ⟨m, hm⟩ : ∃ m, get_pv_metadata "/acq" [fixMulti2] = Except.ok m :=
    ⟨_, rfl⟩
  refine ⟨by decide, m, hm, ?_⟩
  rw [h.1 m hm]
  decide

/-- C2: in the multi-plane single-controller branch, `num_planes` is the
number of distinct frame index values within cycle 1, `fieldZ` is the
sequence read at subindex 0 across all cycle-1 frames in frame order
(`singleControllerValues`), and when that sequence's length differs from
`num_planes` the run fails with the depth-count `AssertionError`. -/
theorem C2_single_controller_depths
    (dir : String) (roots : List Elem) (root : Elem) (s : Scalars)
    (planes : List ℤ)
    (hloc : locateMetadataRoot dir roots = Except.ok root)
    (hsc : scalarExtract root = Except.ok s)
    (hmp : perFrameZAxis root ≠ [])
    (h1 : (zControllers root).length = 1)
    (hplanes : mapExcept (fun p => pyIntAttr p "index") (cycle1Frames root)
      = Except.ok planes) :
    (∀ m, get_pv_metadata dir roots = Except.ok m →
        m.num_planes = planes.dedup.length ∧
        m.fieldZ = ZFields.strs (singleControllerValues root) ∧
        (singleControllerValues root).length = planes.dedup.length)
    ∧ ((singleControllerValues root).length ≠ planes.dedup.length →
        get_pv_metadata dir roots
          = Except.error (PVError.assertionError depthMsg)) := by
  obtain ⟨firstSeq, hseqh⟩ := exists_head (allSequences_ne_of_perFrame hmp)
  have hnot : ¬ 1 < (zControllers root).length := by
    rw [h1]
    decide
  have hrun := depthResolve_strs_run root firstSeq planes hmp hseqh hplanes hnot
  constructor
  · intro m hok
    obtain ⟨s2, d, hs2, hd, hm⟩ := gpm_ok_inv dir roots root m hloc hok
    rw [hrun] at hd
    simp only [bind_ok_iff, pyAssert_ok_iff, beq_iff_eq, pure_def,
      Except.ok.injEq] at hd
    obtain ⟨u, hlen, hdq⟩ := hd
    refine ⟨?_, ?_, hlen⟩ <;> (rw [hm, ← hdq]; rfl)
  · intro hne
    have herr : depthResolve root
        = Except.error (PVError.assertionError depthMsg) := by
      rw [hrun, pyAssert_false depthMsg (beq_eq_false_iff_ne.mpr hne), err_bind]
    exact gpm_err_depth dir roots root s _ hloc hsc herr

/-- C2 witness: a concrete single-controller three-plane document yields
`num_planes = 3` and the three raw per-frame Z strings. -/
theorem C2_single_controller_depths_witness :
    (zControllers fixMulti1).length = 1 ∧
    ∃ m, get_pv_metadata "/acq" [fixMulti1] = Except.ok m ∧
      m.num_planes = 3 ∧
      m.fieldZ = ZFields.strs [some "1.0", some "2.0", some "3.0"] ∧
      (singleControllerValues fixMulti1).length = 3 := by
  obtain ⟨s, hs⟩ : ∃ s, scalarExtract fixMulti1 = Except.ok s := ⟨_, rfl⟩
  have h := C2_single_controller_depths "/acq" [fixMulti1] fixMulti1 s [1, 2, 3]
    rfl hs (ne_nil_len (by decide)) (by decide) (by decide)
  obtain ⟨m, hm⟩ : ∃ m, get_pv_metadata "/acq" [fixMulti1] = Except.ok m :=
    ⟨_, rfl⟩
  obtain ⟨h1, h2, h3⟩ := h.1 m hm
  refine ⟨by decide, m, hm, ?_, ?_, ?_⟩
  · rw [h1]
    decide
  · rw [h2]
    decide
  · rw [h3]
    decide

/-- C3 (amended): for a document without per-frame Z data in cycle 1, the
record has `num_planes = 1`, `bidirectional_z = False`, and `fieldZ` is a
scalar of size 1 whose value is read from the FIRST
`positionCurrent`/ZAxis `SubindexedValue` entry anywhere in the document in
document order (the sequence-level entry only when no per-frame entry of
another cycle precedes it). -/
theorem C3_single_plane_amended
    (dir : String) (roots : List Elem) (root : Elem)
    (hloc : locateMetadataRoot dir roots = Except.ok root)
    (hsp : perFrameZAxis root = []) :
    ∀ m, get_pv_metadata dir roots = Except.ok m →
      m.num_planes = 1 ∧ m.bidirectional_z = false ∧
      ∃ zNode q, (anyZSubValue root).head? = some zNode ∧
        pyFloatAttr zNode "value" = Except.ok q ∧
        m.fieldZ = ZFields.scalar q ∧ ZFields.size m.fieldZ = 1 := by
  intro m hok
  obtain ⟨s, d, hs, hd, hm⟩ := gpm_ok_inv dir roots root m hloc hok
  rw [depthResolve_single_run root hsp] at hd
  simp only [bind_ok_iff, findAttrib_ok_iff, pure_def, Except.ok.injEq] at hd
  obtain ⟨zNode, hz, q, hq, hdq⟩ := hd
  subst hm
  rw [← hdq]
  exact ⟨rfl, rfl, zNode, q, hz, hq, rfl, rfl⟩

/-- C3 counterexample: in `fixC3` the cycle-1 frames carry no Z data, the
sequence-level Z entry holds `5.0`, but a per-frame entry of cycle 2 (`7.0`)
precedes it in document order, and the returned `fieldZ` is `7` — not the
sequence-level value `5` the claim requires. -/
theorem C3_counterexample :
    (perFrameZAxis fixC3).length = 0 ∧
    ((specSequenceLevelZValues fixC3).head?.map (fun e => e.attr "value"))
      = some (some "5.0") ∧
    pyFloat "5.0" = some 5 ∧
    fieldZOf (get_pv_metadata "/acq" [fixC3]) = some (ZFields.scalar 7) ∧
    (7 : ℚ) ≠ 5 := by decide

/-- C3 witness: a well-formed single-plane document, where the first match in
document order IS the sequence-level entry. -/
theorem C3_single_plane_amended_witness :
    ∃ m, get_pv_metadata "/acq" [fixSingle] = Except.ok m ∧
      m.num_planes = 1 ∧ m.bidirectional_z = false ∧
      m.fieldZ = ZFields.scalar 5 := by
  obtain ⟨m, hm⟩ : ∃ m, get_pv_metadata "/acq" [fixSingle] = Except.ok m :=
    ⟨_, rfl⟩
  obtain ⟨h1, h2, zNode, q, hz, hq, h3, h4⟩ :=
    C3_single_plane_amended "/acq" [fixSingle] fixSingle rfl
      (nil_of_len (by decide)) m hm
  have hfz : fieldZOf (get_pv_metadata "/acq" [fixSingle])
      = some (ZFields.scalar 5) := by decide
  rw [hm] at hfz
  simp only [fieldZOf, Option.some.injEq] at hfz
  exact ⟨m, hm, h1, h2, hfz⟩

theorem locate_none (dir : String) (roots : List Elem)
    (hall : ∀ r ∈ roots, qualifies r = false) :
    locateMetadataRoot dir roots = Except.error (PVError.fileNotFound dir) := by
  induction roots with
  | nil => rfl
  | cons r rs ih =>
      unfold locateMetadataRoot
      rw [if_neg (by simp [hall r (List.mem_cons_self r rs)])]
      exact ih (fun x hx => hall x (List.mem_cons_of_mem r hx))

theorem locate_ok_mem (dir : String) (roots : List Elem) (root : Elem)
    (h : locateMetadataRoot dir roots = Except.ok root) :
    root ∈ roots ∧ qualifies root = true := by
  induction roots with
  | nil => exact Except.noConfusion h
  | cons r rs ih =>
      unfold locateMetadataRoot at h
      by_cases hq : qualifies r = true
      · rw [if_pos hq] at h
        injection h with h2
        subst h2
        exact ⟨List.mem_cons_self r rs, hq⟩
      · rw [if_neg hq] at h
        obtain ⟨hmem, hq2⟩ := ih h
        exact ⟨List.mem_cons_of_mem r hmem, hq2⟩

/-- C5 (amended): the locator selects only documents whose FIRST descendant
`Sequence` element is truthy in the Python sense, i.e. has at least one
child (`qualifies`); when no document in the directory qualifies, the whole
operation fails with the metadata-not-found error naming the directory, and
a located document always satisfies the truthiness criterion (extraction
never proceeds on a non-qualifying document). -/
theorem C5_locator_amended (dir : String) (roots : List Elem) :
    ((∀ r ∈ roots, qualifies r = false) →
      get_pv_metadata dir roots = Except.error (PVError.fileNotFound dir))
    ∧ (∀ root, locateMetadataRoot dir roots = Except.ok root →
        root ∈ roots ∧ qualifies root = true) := by
  constructor
  · intro hall
    unfold get_pv_metadata
    rw [locate_none dir roots hall, err_bind]
  · exact fun root h => locate_ok_mem dir roots root h

/-- C5 counterexample: `fixC5`'s root DOES contain a `Sequence` element, so
under the claim it qualifies; but the element is childless, hence falsy in
Python, and the locator raises "metadata not found" instead of selecting
the document. -/
theorem C5_counterexample :
    (allSequences fixC5).length = 1 ∧
    errOf (locateMetadataRoot "/acq" [fixC5])
      = some (PVError.fileNotFound "/acq") ∧
    errOf (get_pv_metadata "/acq" [fixC5])
      = some (PVError.fileNotFound "/acq") := by decide

/-- C5 witness: a directory in which no document qualifies fails with the
metadata-not-found error naming the directory. -/
theorem C5_locator_amended_witness :
    get_pv_metadata "/data/run1" [fixC5]
      = Except.error (PVError.fileNotFound "/data/run1") :=
  (C5_locator_amended "/data/run1" [fixC5]).1 (by decide)

/-- C9: the element type of `fieldZ` depends on the schema shape taken:
a rational scalar (numpy float) for single-plane documents, a list of
parsed floats for multi-controller documents, and a list of RAW attribute
strings (no numeric conversion) for single-controller documents. -/
theorem C9_fieldZ_types (root : Elem) :
    (perFrameZAxis root = [] →
      ∀ n zf b, depthResolve root = Except.ok (n, zf, b) →
        ∃ q, zf = ZFields.scalar q)
    ∧ (perFrameZAxis root ≠ [] → 1 < (zControllers root).length →
      ∀ n zf b, depthResolve root = Except.ok (n, zf, b) →
        ∃ l, zf = ZFields.floats l)
    ∧ (perFrameZAxis root ≠ [] → (zControllers root).length = 1 →
      ∀ n zf b, depthResolve root = Except.ok (n, zf, b) →
        zf = ZFields.strs (singleControllerValues root)) := by
  refine ⟨?_, ?_, ?_⟩
  · intro hsp n zf b hok
    rw [depthResolve_single_run root hsp] at hok
    simp only [bind_ok_iff, findAttrib_ok_iff, pure_def, Except.ok.injEq,
      Prod.mk.injEq] at hok
    obtain ⟨zNode, hz, q, hq, h1, h2, h3⟩ := hok
    exact ⟨q, h2.symm⟩
  · intro hmp hmc n zf b hok
    unfold depthResolve at hok
    rw [if_neg (by simp [isEmpty_eq_false hmp])] at hok
    simp only [if_pos hmc] at hok
    simp only [bind_ok_iff, findAttrib_ok_iff, pyAssert_ok_iff, pure_def,
      Except.ok.injEq, Prod.mk.injEq] at hok
    obtain ⟨fs, hfs, planes, hplanes, zr, hzr, u, hcnt, v, hlen, h1, h2, h3⟩ :=
      hok
    exact ⟨_, h2.symm⟩
  · intro hmp hone n zf b hok
    have hnot : ¬ 1 < (zControllers root).length := by
      rw [hone]
      decide
    unfold depthResolve at hok
    rw [if_neg (by simp [isEmpty_eq_false hmp])] at hok
    simp only [if_neg hnot] at hok
    simp only [bind_ok_iff, findAttrib_ok_iff, pyAssert_ok_iff, pure_def,
      Except.ok.injEq, Prod.mk.injEq] at hok
    obtain ⟨fs, hfs, planes, hplanes, u, hlen, h1, h2, h3⟩ := hok
    exact h2.symm

/-- C9 witness: the single-controller fixture returns raw strings. -/
theorem C9_fieldZ_types_witness :
    depthResolve fixMulti1
      = Except.ok (3, ZFields.strs [some "1.0", some "2.0", some "3.0"], true) ∧
    ZFields.strs (singleControllerValues fixMulti1)
      = ZFields.strs [some "1.0", some "2.0", some "3.0"] := by
  have hd : depthResolve fixMulti1
      = Except.ok (3, ZFields.strs [some "1.0", some "2.0", some "3.0"], true) :=
    by decide
  have h := (C9_fieldZ_types fixMulti1).2.2 (ne_nil_len (by decide)) (by decide)
    3 (ZFields.strs [some "1.0", some "2.0", some "3.0"]) true hd
  exact ⟨hd, h.symm⟩

/-- C10 (amended): the varying test applies `all` to a generator over the
collected list, so on an EMPTY collected list it is vacuously true (the
first-element access is never evaluated) and the controller counts as
non-varying; in the multi-controller branch, once per-frame collection
succeeds, every failure is one of the named `AssertionError`s — no
unstructured index error arises from empty collections. -/
theorem C10_empty_controller_vacuous
    (root : Elem) (planes : List ℤ) (z_repeats : List (List ℚ))
    (hmp : perFrameZAxis root ≠ [])
    (hmc : 1 < (zControllers root).length)
    (hplanes : mapExcept (fun p => pyIntAttr p "index") (cycle1Frames root)
      = Except.ok planes)
    (hcol : collectRepeats root = Except.ok z_repeats) :
    variesCheck [] = false ∧
    (∀ e, depthResolve root = Except.error e →
      ∃ msg, e = PVError.assertionError msg) := by
  obtain ⟨firstSeq, hseqh⟩ := exists_head (allSequences_ne_of_perFrame hmp)
  have hrun := depthResolve_multi_run root firstSeq planes z_repeats hmp hseqh
    hplanes hmc hcol
  refine ⟨rfl, ?_⟩
  intro e herr
  rw [hrun] at herr
  cases hb : ((z_repeats.map variesCheck).countP (fun x => x) == 1) with
  | false =>
      rw [pyAssert_false mcMsg hb, err_bind] at herr
      injection herr with h
      exact ⟨mcMsg, h.symm⟩
  | true =>
      rw [pyAssert_true mcMsg hb, ok_bind] at herr
      cases hb2 : ((z_repeats.getD ((z_repeats.map variesCheck).indexOf true)
          []).length == planes.dedup.length) with
      | false =>
          rw [pyAssert_false depthMsg hb2, err_bind] at herr
          injection herr with h
          exact ⟨depthMsg, h.symm⟩
      | true =>
          rw [pyAssert_true depthMsg hb2, ok_bind] at herr
          exact Except.noConfusion herr

/-- C10 counterexample: in `fixC10` the second controller child has no
matching per-frame `SubindexedValue` (its collected list is empty), which
violates the claim's stated precondition for totality — yet the run
SUCCEEDS and returns a record instead of failing with an index error. -/
theorem C10_counterexample :
    1 < (zControllers fixC10).length ∧
    collectRepeats fixC10 = Except.ok [[10, 20, 30], []] ∧
    isOkE (get_pv_metadata "/acq" [fixC10]) = true := by decide

/-- C10 witness: the amended statement applied to `fixC10`. -/
theorem C10_empty_controller_vacuous_witness :
    variesCheck [] = false ∧
    (∀ e, depthResolve fixC10 = Except.error e →
      ∃ msg, e = PVError.assertionError msg) :=
  C10_empty_controller_vacuous fixC10 [1, 2, 3] [[10, 20, 30], []]
    (ne_nil_len (by decide)) (by decide) (by decide) (by decide)

/-- C4 (amended): when a scalar lookup finds ZERO matching nodes the run
fails — an unstructured `IndexError` for the `findall(...)[0]` lookups
(shown for `framePeriod`, the first such lookup) and a failure (never a
record) for the `find(...)`-based lookups (shown for `micronsPerPixel`);
but a document with MULTIPLE matches does not fail: the lookup silently
uses the first match in document order, as every returned record's
`frame_rate` is computed from the head of the `framePeriod` match list. -/
theorem C4_unique_lookup_amended
    (dir : String) (roots : List Elem) (root : Elem) (cs : List ℤ)
    (hloc : locateMetadataRoot dir roots = Except.ok root)
    (hseqne : cycle1Sequences root ≠ [])
    (hch : mapExcept (fun ch => pyIntAttr ch "channel") (frameFiles root)
      = Except.ok cs) :
    ((pvStateValues root "framePeriod" = []) →
      get_pv_metadata dir roots = Except.error PVError.indexError)
    ∧ ((indexedValueAxis root "micronsPerPixel" "XAxis" = []) →
      ∀ m, get_pv_metadata dir roots ≠ Except.ok m)
    ∧ (∀ m, get_pv_metadata dir roots = Except.ok m →
      ∃ node fp, (pvStateValues root "framePeriod").head? = some node ∧
        pyFloatAttr node "value" = Except.ok fp ∧ ¬ fp = 0 ∧
        m.frame_rate = 1 / fp) := by
  refine ⟨?_, ?_, ?_⟩
  · intro hfp0
    obtain ⟨sq, hsqh⟩ := exists_head hseqne
    have hfa : findAttrib (cycle1Sequences root) = Except.ok sq := by
      rw [findAttrib_ok_iff, hsqh]
    have herr : scalarExtract root = Except.error PVError.indexError := by
      unfold scalarExtract
      rw [hfa, ok_bind, hch, ok_bind, hfp0]
      rfl
    exact gpm_err_scalar dir roots root _ hloc herr
  · intro humE m hok
    obtain ⟨s, d, hs, hd, hm⟩ := gpm_ok_inv dir roots root m hloc hok
    obtain ⟨seq2, cs2, fpNode2, fp2, slNode2, sl2, dte2, lastF2, td2, pxNode2,
      px2, umNode2, upp2, xNode2, xv2, yNode2, yv2, hseq2, hcs2, hfp2, hfpv2,
      hfp02, hsl2, hslv2, hdte2, hlast2, htd2, hpx2, hpxv2, hum2, huppv2, hx2,
      hxv2, hy2, hyv2, hsrec2⟩ := scalarExtract_ok_inv root s hs
    rw [humE] at hum2
    exact Option.noConfusion hum2
  · intro m hok
    obtain ⟨s, d, hs, hd, hm⟩ := gpm_ok_inv dir roots root m hloc hok
    obtain ⟨seq2, cs2, fpNode2, fp2, slNode2, sl2, dte2, lastF2, td2, pxNode2,
      px2, umNode2, upp2, xNode2, xv2, yNode2, yv2, hseq2, hcs2, hfp2, hfpv2,
      hfp02, hsl2, hslv2, hdte2, hlast2, htd2, hpx2, hpxv2, hum2, huppv2, hx2,
      hxv2, hy2, hyv2, hsrec2⟩ := scalarExtract_ok_inv root s hs
    subst hm
    refine ⟨fpNode2, fp2, hfp2, hfpv2, hfp02, ?_⟩
    rw [hsrec2]
    exact ratDiv_eq 1 fp2

/-- C4 counterexample: a document with TWO `framePeriod` nodes (values 0.02
and 0.04) does not fail — the run returns a record whose frame rate 50 is
computed from the arbitrarily-first match, contradicting the claim that
multiple matches surface a failure. -/
theorem C4_counterexample :
    (pvStateValues fixC4 "framePeriod").length = 2 ∧
    ((pvStateValues fixC4 "framePeriod").map (fun e => e.attr "value"))
      = [some "0.02", some "0.04"] ∧
    frameRateOf (get_pv_metadata "/acq" [fixC4]) = some 50 := by decide

/-- C4 witness: the amended statement applied to the two-`framePeriod`
document: the returned frame rate is 1 over the FIRST match's value. -/
theorem C4_unique_lookup_amended_witness :
    ∃ m, get_pv_metadata "/acq" [fixC4] = Except.ok m ∧
      m.frame_rate = 1 / mkRat 1 50 := by
  obtain ⟨m, hm⟩ : ∃ m, get_pv_metadata "/acq" [fixC4] = Except.ok m :=
    ⟨_, rfl⟩
  obtain ⟨node, fp, hnode, hfpv, hfp0, hfr⟩ :=
    (C4_unique_lookup_amended "/acq" [fixC4] fixC4 [1, 1] rfl
      (ne_nil_len (by decide)) (by decide)).2.2 m hm
  have hcon : ((pvStateValues fixC4 "framePeriod").head?.map
      (fun e => e.attr "value")) = some (some "0.02") := by decide
  rw [hnode] at hcon
  simp only [Option.map_some', Option.some.injEq] at hcon
  have hval : pyFloatAttr node "value" = Except.ok (mkRat 1 50) := by
    unfold pyFloatAttr
    rw [hcon]
    decide
  rw [hval] at hfpv
  injection hfpv with he
  rw [← he] at hfr
  exact ⟨m, hm, hfr⟩

/-- C6: `num_channels` is the cardinality of the set of distinct parsed
channel identifiers across all per-frame per-file `channel` attributes. -/
theorem C6_channel_dedup
    (dir : String) (roots : List Elem) (root : Elem) (cs : List ℤ)
    (hloc : locateMetadataRoot dir roots = Except.ok root)
    (hch : mapExcept (fun ch => pyIntAttr ch "channel") (frameFiles root)
      = Except.ok cs) :
    ∀ m, get_pv_metadata dir roots = Except.ok m →
      m.num_channels = cs.dedup.length := by
  intro m hok
  obtain ⟨s, d, hs, hd, hm⟩ := gpm_ok_inv dir roots root m hloc hok
  obtain ⟨seq2, cs2, fpNode2, fp2, slNode2, sl2, dte2, lastF2, td2, pxNode2,
    px2, umNode2, upp2, xNode2, xv2, yNode2, yv2, hseq2, hcs2, hfp2, hfpv2,
    hfp02, hsl2, hslv2, hdte2, hlast2, htd2, hpx2, hpxv2, hum2, huppv2, hx2,
    hxv2, hy2, hyv2, hsrec2⟩ := scalarExtract_ok_inv root s hs
  rw [hch] at hcs2
  injection hcs2 with hcseq
  subst hm
  rw [hsrec2, hcseq]
  rfl

/-- C6 witness: six frames alternating channels 1 and 2 yield
`num_channels = 2`, not 6. -/
theorem C6_channel_dedup_witness :
    mapExcept (fun ch => pyIntAttr ch "channel") (frameFiles fixSingle)
      = Except.ok [1, 2, 1, 2, 1, 2] ∧
    ([1, 2, 1, 2, 1, 2] : List ℤ).length = 6 ∧
    ∃ m, get_pv_metadata "/acq" [fixSingle] = Except.ok m ∧
      m.num_channels = 2 := by
  refine ⟨by decide, by decide, ?_⟩
  obtain ⟨m, hm⟩ : ∃ m, get_pv_metadata "/acq" [fixSingle] = Except.ok m :=
    ⟨_, rfl⟩
  have h := C6_channel_dedup "/acq" [fixSingle] fixSingle [1, 2, 1, 2, 1, 2]
    rfl (by decide) m hm
  refine ⟨m, hm, ?_⟩
  rw [h]
  decide

/-- C7: any returned record has `frame_rate = 1 / framePeriod` (the parsed
value of the first `framePeriod` node, necessarily nonzero) and
`usecs_per_line = scanLinePeriod * 1e6`. -/
theorem C7_framerate_and_linetime
    (dir : String) (roots : List Elem) (root : Elem)
    (fpNode : Elem) (fp : ℚ) (slNode : Elem) (sl : ℚ)
    (hloc : locateMetadataRoot dir roots = Except.ok root)
    (hfp : (pvStateValues root "framePeriod").head? = some fpNode)
    (hfpv : pyFloatAttr fpNode "value" = Except.ok fp)
    (hsl : (pvStateValues root "scanLinePeriod").head? = some slNode)
    (hslv : pyFloatAttr slNode "value" = Except.ok sl) :
    ∀ m, get_pv_metadata dir roots = Except.ok m →
      fp ≠ 0 ∧ m.frame_rate = 1 / fp ∧ m.usecs_per_line = sl * 1000000 := by
  intro m hok
  obtain ⟨s, d, hs, hd, hm⟩ := gpm_ok_inv dir roots root m hloc hok
  obtain ⟨seq2, cs2, fpNode2, fp2, slNode2, sl2, dte2, lastF2, td2, pxNode2,
    px2, umNode2, upp2, xNode2, xv2, yNode2, yv2, hseq2, hcs2, hfp2, hfpv2,
    hfp02, hsl2, hslv2, hdte2, hlast2, htd2, hpx2, hpxv2, hum2, huppv2, hx2,
    hxv2, hy2, hyv2, hsrec2⟩ := scalarExtract_ok_inv root s hs
  rw [hfp] at hfp2
  injection hfp2 with he1
  subst he1
  rw [hfpv] at hfpv2
  injection hfpv2 with he2
  subst he2
  rw [hsl] at hsl2
  injection hsl2 with he3
  subst he3
  rw [hslv] at hslv2
  injection hslv2 with he4
  subst he4
  subst hm
  refine ⟨hfp02, ?_, ?_⟩
  · rw [hsrec2]
    exact ratDiv_eq 1 fp
  · rw [hsrec2]
    exact ratMul_eq sl 1000000

/-- C7 witness: framePeriod = 0.02 yields frame rate 50 (= 1 / (1/50)), and
scanLinePeriod = 0.0001 s yields 100 microseconds per line. -/
theorem C7_framerate_and_linetime_witness :
    ∃ m, get_pv_metadata "/acq" [fixMulti1] = Except.ok m ∧
      (mkRat 1 50 : ℚ) ≠ 0 ∧
      m.frame_rate = 1 / mkRat 1 50 ∧
      m.frame_rate = 50 ∧
      m.usecs_per_line = mkRat 1 10000 * 1000000 := by
  obtain ⟨m, hm⟩ : ∃ m, get_pv_metadata "/acq" [fixMulti1] = Except.ok m :=
    ⟨_, rfl⟩
  obtain ⟨h0, h1, h2⟩ := C7_framerate_and_linetime "/acq" [fixMulti1] fixMulti1
    (shardPV "framePeriod" "0.02") (mkRat 1 50)
    (shardPV "scanLinePeriod" "0.0001") (mkRat 1 10000)
    rfl rfl (by decide) rfl (by decide) m hm
  have hfr : frameRateOf (get_pv_metadata "/acq" [fixMulti1]) = some 50 := by
    decide
  rw [hm] at hfr
  simp only [frameRateOf, Option.some.injEq] at hfr
  exact ⟨m, hm, h0, h1, hfr, h2⟩

/-- C8: every returned record has `num_rois = 0`, `bidirectional = False`,
equal pixel height and width, and equal physical height and width given by
pixel count times the X-axis microns-per-pixel value; the ROI and
bidirectional entries are constants of the assembler, not read from the
document. -/
theorem C8_structural_invariants
    (dir : String) (roots : List Elem) (root : Elem) (umNode : Elem) (upp : ℚ)
    (hloc : locateMetadataRoot dir roots = Except.ok root)
    (hum : (indexedValueAxis root "micronsPerPixel" "XAxis").head?
      = some umNode)
    (hupp : pyFloatAttr umNode "value" = Except.ok upp) :
    ∀ m, get_pv_metadata dir roots = Except.ok m →
      m.num_rois = 0 ∧ m.bidirectional = false ∧
      m.height_in_pixels = m.width_in_pixels ∧
      m.height_in_um = m.width_in_um ∧
      m.height_in_um = (m.height_in_pixels : ℚ) * upp := by
  intro m hok
  obtain ⟨s, d, hs, hd, hm⟩ := gpm_ok_inv dir roots root m hloc hok
  obtain ⟨seq2, cs2, fpNode2, fp2, slNode2, sl2, dte2, lastF2, td2, pxNode2,
    px2, umNode2, upp2, xNode2, xv2, yNode2, yv2, hseq2, hcs2, hfp2, hfpv2,
    hfp02, hsl2, hslv2, hdte2, hlast2, htd2, hpx2, hpxv2, hum2, huppv2, hx2,
    hxv2, hy2, hyv2, hsrec2⟩ := scalarExtract_ok_inv root s hs
  rw [hum] at hum2
  injection hum2 with he1
  subst he1
  rw [hupp] at huppv2
  injection huppv2 with he2
  subst he2
  subst hm
  refine ⟨rfl, rfl, rfl, rfl, ?_⟩
  rw [hsrec2]
  exact ratMul_eq ((px2 : ℚ)) upp

/-- C8 witness: the invariants on a concrete document with 512 pixels per
line and 1.2 microns per pixel. -/
theorem C8_structural_invariants_witness :
    ∃ m, get_pv_metadata "/acq" [fixMulti1] = Except.ok m ∧
      m.num_rois = 0 ∧ m.bidirectional = false ∧
      m.height_in_pixels = m.width_in_pixels ∧
      m.height_in_um = m.width_in_um ∧
      m.height_in_um = (m.height_in_pixels : ℚ) * mkRat 6 5 := by
  obtain ⟨m, hm⟩ : ∃ m, get_pv_metadata "/acq" [fixMulti1] = Except.ok m :=
    ⟨_, rfl⟩
  obtain ⟨k1, k2, k3, k4, k5⟩ := C8_structural_invariants "/acq" [fixMulti1]
    fixMulti1 (Elem.mk "IndexedValue" [("index", "XAxis"), ("value", "1.2")] [])
    (mkRat 6 5) rfl rfl (by decide) m hm
  exact ⟨m, hm, k1, k2, k3, k4, k5⟩
